import Mathlib

set_option maxHeartbeats 1000000

/- # Verification of the metadata-manipulator repository

Shallow embedding of the three source modules (`image_utils.py`,
`image_functions.py`, `main.py`).  Strings are modelled as `List Char`,
Python `datetime` values as `PyDateTime`, raised exceptions as
`Except PyError`, and `logging` calls as structured `LogEvent`s that
carry exactly the arguments interpolated into the source f-strings. -/

/- ## Characters and Python string primitives -/

/-- The character for decimal digit `q` (used by `strftime` zero-padding). -/
def digitChar (q : Nat) : Char := Char.ofNat (48 + q)

/-- Matches the regex class \d on ASCII input. -/
def isDigit (c : Char) : Bool := decide ('0' ≤ c) && decide (c ≤ '9')

/-- Numeric value of a digit character. -/
def digitVal (c : Char) : Nat := c.toNat - 48

/-- Matches the regex class \s on ASCII input (Python whitespace). -/
def isPySpace (c : Char) : Bool :=
  (c == ' ') || (c == '\t') || (c == '\n') || (c == '\r') || (c == '\x0b') || (c == '\x0c')

/-- Python slice `s[a:b]` (with `0 ≤ a ≤ b`) on a list of characters;
total, clamped to the string bounds exactly as in Python. -/
def pySlice (l : List Char) (a b : Nat) : List Char := (l.drop a).take (b - a)

/- ## Python datetime -/

/-- A `datetime.datetime` value (naive: no timezone). -/
structure PyDateTime where
  year : Nat
  month : Nat
  day : Nat
  hour : Nat
  minute : Nat
  second : Nat
  microsecond : Nat
deriving DecidableEq

/-- Gregorian leap-year rule used by `datetime`. -/
def isLeapYear (y : Nat) : Bool := (y % 4 == 0 && y % 100 != 0) || (y % 400 == 0)

/-- Days in a month, as validated by the `datetime` constructor. -/
def daysInMonth (y m : Nat) : Nat :=
  if m = 2 then (if isLeapYear y then 29 else 28)
  else if m = 4 ∨ m = 6 ∨ m = 9 ∨ m = 11 then 30
  else 31

/-- The invariant enforced by the `datetime.datetime` constructor
(MINYEAR = 1, MAXYEAR = 9999). -/
def PyDateTime.Valid (d : PyDateTime) : Prop :=
  1 ≤ d.year ∧ d.year ≤ 9999 ∧ 1 ≤ d.month ∧ d.month ≤ 12 ∧
  1 ≤ d.day ∧ d.day ≤ daysInMonth d.year d.month ∧
  d.hour ≤ 23 ∧ d.minute ≤ 59 ∧ d.second ≤ 59 ∧ d.microsecond ≤ 999999

instance (d : PyDateTime) : Decidable d.Valid := by
  unfold PyDateTime.Valid; infer_instance

/-- Comparison of `datetime` values: lexicographic on
(year, month, day, hour, minute, second, microsecond). -/
def pyLt (a b : PyDateTime) : Bool :=
  if a.year ≠ b.year then decide (a.year < b.year)
  else if a.month ≠ b.month then decide (a.month < b.month)
  else if a.day ≠ b.day then decide (a.day < b.day)
  else if a.hour ≠ b.hour then decide (a.hour < b.hour)
  else if a.minute ≠ b.minute then decide (a.minute < b.minute)
  else if a.second ≠ b.second then decide (a.second < b.second)
  else decide (a.microsecond < b.microsecond)

/-- Python `a > b` on datetimes. -/
def pyGt (a b : PyDateTime) : Bool := pyLt b a

/- ## datetime.strptime with format "%Y:%m:%d %H:%M:%S"

CPython `_strptime` compiles the format to the anchored regex
`\d\d\d\d:(1[0-2]|0[1-9]|[1-9]):(3[01]|[12]\d|0[1-9]|[1-9])\s+`
`(2[0-3]|[0-1]\d|\d):([0-5]\d|\d):(6[01]|[0-5]\d|\d)`
(whitespace in the format becomes `\s+`), requires the match to consume
the whole input, and then calls the `datetime` constructor, which
additionally validates the day against the month length, rejects
leap seconds, and enforces MINYEAR.  The matchers below implement that
regex with its left-to-right alternation order and backtracking. -/

/-- Regex `\d` repeated: match exactly `n` digit characters, accumulating
their value, then continue with `k`. -/
def matchDigitsAux {α : Type} : Nat → Nat → (Nat → List Char → Option α) → List Char → Option α
  | 0, acc, k, l => k acc l
  | _ + 1, _, _, [] => none
  | n + 1, acc, k, c :: rest =>
      if isDigit c then matchDigitsAux n (10 * acc + digitVal c) k rest else none

/-- Match one literal character, then continue with `k`. -/
def matchLit {α : Type} (ch : Char) (k : List Char → Option α) : List Char → Option α
  | [] => none
  | c :: rest => if c = ch then k rest else none

/-- Match a numeric field whose regex is a union of two-digit
alternatives (recognised by `two`, tried first) and a final one-digit
alternative (recognised by `one`), with backtracking into the
continuation `k`, exactly as the compiled regex behaves. -/
def matchField {α : Type} (two : Char → Char → Bool) (one : Char → Bool)
    (k : Nat → List Char → Option α) : List Char → Option α
  | [] => none
  | [a] => if one a then k (digitVal a) [] else none
  | a :: b :: rest =>
      if two a b then
        match k (10 * digitVal a + digitVal b) rest with
        | some r => some r
        | none => if one a then k (digitVal a) (b :: rest) else none
      else if one a then k (digitVal a) (b :: rest)
      else none

/-- Greedy `\s*` with backtracking into the continuation `k`. -/
def matchSpacesStar {α : Type} (k : List Char → Option α) : List Char → Option α
  | [] => k []
  | c :: rest =>
      if isPySpace c then
        match matchSpacesStar k rest with
        | some r => some r
        | none => k (c :: rest)
      else k (c :: rest)

/-- Greedy `\s+` (the translation of the space of the format). -/
def matchSpacesPlus {α : Type} (k : List Char → Option α) : List Char → Option α
  | [] => none
  | c :: rest => if isPySpace c then matchSpacesStar k rest else none

/-- Two-digit alternatives of `%m`: `1[0-2]|0[1-9]`. -/
def monthTwo (a b : Char) : Bool :=
  (a == '1' && (decide ('0' ≤ b) && decide (b ≤ '2'))) ||
  (a == '0' && (decide ('1' ≤ b) && decide (b ≤ '9')))

/-- One-digit alternative of `%m`: `[1-9]`. -/
def monthOne (a : Char) : Bool := decide ('1' ≤ a) && decide (a ≤ '9')

/-- Two-digit alternatives of `%d`: `3[01]|[12]\d|0[1-9]`. -/
def dayTwo (a b : Char) : Bool :=
  (a == '3' && (b == '0' || b == '1')) ||
  ((a == '1' || a == '2') && isDigit b) ||
  (a == '0' && (decide ('1' ≤ b) && decide (b ≤ '9')))

/-- One-digit alternative of `%d`: `[1-9]`. -/
def dayOne (a : Char) : Bool := decide ('1' ≤ a) && decide (a ≤ '9')

/-- Two-digit alternatives of `%H`: `2[0-3]|[0-1]\d`. -/
def hourTwo (a b : Char) : Bool :=
  (a == '2' && (decide ('0' ≤ b) && decide (b ≤ '3'))) ||
  ((a == '0' || a == '1') && isDigit b)

/-- One-digit alternative of `%H`: `\d`. -/
def hourOne (a : Char) : Bool := isDigit a

/-- Two-digit alternative of `%M`: `[0-5]\d`. -/
def minuteTwo (a b : Char) : Bool := (decide ('0' ≤ a) && decide (a ≤ '5')) && isDigit b

/-- One-digit alternative of `%M`: `\d`. -/
def minuteOne (a : Char) : Bool := isDigit a

/-- Two-digit alternatives of `%S`: `6[01]|[0-5]\d` (leap seconds are
accepted by the regex and rejected later by the `datetime` constructor). -/
def secondTwo (a b : Char) : Bool :=
  (a == '6' && (b == '0' || b == '1')) ||
  ((decide ('0' ≤ a) && decide (a ≤ '5')) && isDigit b)

/-- One-digit alternative of `%S`: `\d`. -/
def secondOne (a : Char) : Bool := isDigit a

/-- The six numeric fields produced by a successful regex match. -/
structure STime where
  tmYear : Nat
  tmMon : Nat
  tmMday : Nat
  tmHour : Nat
  tmMin : Nat
  tmSec : Nat
deriving DecidableEq

/-- Stage of the compiled regex after the second time colon: `%S`,
followed by the end-of-input check (`len(data_string) == found.end()`). -/
def stepSec (y mo da h mi : Nat) : List Char → Option STime :=
  matchField secondTwo secondOne (fun s l => if l = [] then some ⟨y, mo, da, h, mi, s⟩ else none)

/-- Stage `%M:` of the compiled regex. -/
def stepMin (y mo da h : Nat) : List Char → Option STime :=
  matchField minuteTwo minuteOne (fun mi l => matchLit ':' (stepSec y mo da h mi) l)

/-- Stage `%H:` of the compiled regex. -/
def stepHour (y mo da : Nat) : List Char → Option STime :=
  matchField hourTwo hourOne (fun h l => matchLit ':' (stepMin y mo da h) l)

/-- Stage `%d\s+` of the compiled regex. -/
def stepDay (y mo : Nat) : List Char → Option STime :=
  matchField dayTwo dayOne (fun da l => matchSpacesPlus (stepHour y mo da) l)

/-- Stage `%m:` of the compiled regex. -/
def stepMon (y : Nat) : List Char → Option STime :=
  matchField monthTwo monthOne (fun mo l => matchLit ':' (stepDay y mo) l)

/-- Full-match of the compiled regex for "%Y:%m:%d %H:%M:%S". -/
def strptimeExifChars : List Char → Option STime :=
  matchDigitsAux 4 0 (fun y l => matchLit ':' (stepMon y) l)

/-- Model of `datetime.strptime(s, "%Y:%m:%d %H:%M:%S")` as a total function:
`none` means the call raises `ValueError` (either "does not match
format" / "unconverted data remains" from the regex, or a range error
from the `datetime` constructor). -/
def pyStrptimeExif (l : List Char) : Option PyDateTime :=
  match strptimeExifChars l with
  | none => none
  | some t =>
      if 1 ≤ t.tmYear ∧ t.tmMday ≤ daysInMonth t.tmYear t.tmMon ∧ t.tmSec ≤ 59 then
        some ⟨t.tmYear, t.tmMon, t.tmMday, t.tmHour, t.tmMin, t.tmSec, 0⟩
      else none

/- ## datetime.strftime with format "%Y:%m:%d %H:%M:%S" -/

/-- Zero-padded two-digit rendering (`%m`, `%d`, `%H`, `%M`, `%S`). -/
def padTwo (n : Nat) : List Char := [digitChar (n / 10), digitChar (n % 10)]

/-- Zero-padded four-digit rendering of `%Y` (as documented for
`datetime.strftime`: "0001, 0002, ..., 9999"). -/
def padFour (n : Nat) : List Char :=
  [digitChar (n / 1000), digitChar (n / 100 % 10), digitChar (n / 10 % 10), digitChar (n % 10)]

/-- Model of `d.strftime("%Y:%m:%d %H:%M:%S")`: the canonical 19-character
encoding; microseconds are dropped (truncation to second precision). -/
def pyStrftimeExif (d : PyDateTime) : List Char :=
  padFour d.year ++ ':' :: (padTwo d.month ++ ':' :: (padTwo d.day ++ ' ' ::
    (padTwo d.hour ++ ':' :: (padTwo d.minute ++ ':' :: padTwo d.second))))

/- ## EXIF container model (the piexif / PIL view used by the sources)

`piexif` represents the metadata block as a dict with a "0th" (primary)
section and an "Exif" section, each mapping integer tag ids to byte
strings; `img.getexif()` exposes the primary-section tags.  Tag ids
below are the `piexif.ImageIFD` / `piexif.ExifIFD` constants. -/

def ImageIFD_DateTime : Nat := 306
def ExifIFD_DateTimeOriginal : Nat := 36867
def ExifIFD_DateTimeDigitized : Nat := 36868

/-- The decoded metadata container: primary ("0th") and "Exif" sections. -/
structure ExifDict where
  zeroth : List (Nat × List Char)
  exif : List (Nat × List Char)
deriving DecidableEq

/-- Python dict assignment `section[tag] = value`. -/
def setTag (l : List (Nat × List Char)) (t : Nat) (v : List Char) : List (Nat × List Char) :=
  (t, v) :: l.filter (fun p => p.1 != t)

/-- A raised Python exception, with the message it was constructed with. -/
inductive PyError where
  | valueError (msg : List Char)
  | runtimeError (msg : List Char)
deriving DecidableEq

/-- Model of `str(e)`: the message of the exception. -/
def PyError.msg : PyError → List Char
  | .valueError m => m
  | .runtimeError m => m

/-- One `logging` call, as the call site and the values interpolated
into its f-string: `warnNoExifDate image` is
logging.warning(f"No EXIF date found for {image}"); `warnInvalidHour s
img` is logging.warning(f"Invalid hour in {s} for {img}, correcting to
00"); `errInvalidDateFormat s img` is logging.error(f"Invalid date
format {s} in {img}"); `infoUpdatedExifDate p` is
logging.info(f"Updated EXIF date for {p}"); `warnInvalidHour24 s p` is
logging.warning(f"Invalid hour (24) in {s} for {p}, correcting to 00"). -/
inductive LogEvent where
  | warnNoExifDate (image : List Char)
  | warnInvalidHour (dateStr image : List Char)
  | errInvalidDateFormat (dateStr image : List Char)
  | infoUpdatedExifDate (filePath : List Char)
  | warnInvalidHour24 (creationDate path : List Char)
deriving DecidableEq

/-- Whether a log event was emitted at level WARNING. -/
def LogEvent.isWarning : LogEvent → Bool
  | .warnNoExifDate _ => true
  | .warnInvalidHour _ _ => true
  | .warnInvalidHour24 _ _ => true
  | _ => false

/-- The apostrophe character (used in the image_functions error message). -/
def quoteChar : Char := Char.ofNat 39

/-- The tuple `EXIFHandler._VALID_HOURS` of 24 valid hour strings. -/
def VALID_HOURS : List (List Char) :=
  [['0', '0'], ['0', '1'], ['0', '2'], ['0', '3'], ['0', '4'], ['0', '5'], ['0', '6'],
   ['0', '7'], ['0', '8'], ['0', '9'], ['1', '0'], ['1', '1'], ['1', '2'], ['1', '3'],
   ['1', '4'], ['1', '5'], ['1', '6'], ['1', '7'], ['1', '8'], ['1', '9'], ['2', '0'],
   ['2', '1'], ['2', '2'], ['2', '3']]

namespace EXIFHandler

/-- The default of the `default_date` parameter of `EXIFHandler.__init__`:
`datetime(9999, 1, 1)`. -/
def defaultDate : PyDateTime := ⟨9999, 1, 1, 0, 0, 0, 0⟩

/-- Model of `EXIFHandler._fix_invalid_hours`: if `date_str[11:13]` is not in
`_VALID_HOURS`, warn and return `f"{date_str[:11]}00{date_str[13:]}"`,
else return the string unchanged. -/
def fix_invalid_hours (dateStr image : List Char) : List Char × List LogEvent :=
  if pySlice dateStr 11 13 ∉ VALID_HOURS then
    (dateStr.take 11 ++ '0' :: '0' :: dateStr.drop 13, [.warnInvalidHour dateStr image])
  else (dateStr, [])

/-- Model of `EXIFHandler._parse_datetime`: parse with strptime; on failure log
an error and raise ValueError(f"Invalid date format in {image}"). -/
def parse_datetime (dateStr image : List Char) : Except PyError PyDateTime × List LogEvent :=
  match pyStrptimeExif dateStr with
  | some d => (.ok d, [])
  | none =>
      (.error (.valueError ("Invalid date format in ".toList ++ image)),
       [.errInvalidDateFormat dateStr image])

/-- Model of `EXIFHandler.get_image_date`, given the decoded EXIF data of the image:
missing (or falsy, i.e. empty) date tag warns and returns the default
date; otherwise fix invalid hours and parse. -/
def get_image_date (dflt : PyDateTime) (exifData : ExifDict) (image : List Char) :
    Except PyError PyDateTime × List LogEvent :=
  match List.lookup ImageIFD_DateTime exifData.zeroth with
  | none => (.ok dflt, [.warnNoExifDate image])
  | some dateStr =>
      if dateStr.isEmpty then (.ok dflt, [.warnNoExifDate image])
      else
        match fix_invalid_hours dateStr image with
        | (fixed, log1) =>
            match parse_datetime fixed image with
            | (res, log2) => (res, log1 ++ log2)

/-- Model of `EXIFHandler.update_exif_date`, container-level effect: format the
new date with strftime and assign it to the DateTimeOriginal and
DateTimeDigitized tags of the "Exif" section and the DateTime tag of
the "0th" section. -/
def update_exif_date (exifDict : ExifDict) (newDate : PyDateTime) : ExifDict :=
  let dateBytes := pyStrftimeExif newDate
  { zeroth := setTag exifDict.zeroth ImageIFD_DateTime dateBytes,
    exif := setTag (setTag exifDict.exif ExifIFD_DateTimeOriginal dateBytes)
              ExifIFD_DateTimeDigitized dateBytes }

end EXIFHandler

namespace ImageFunctions

/-- Model of `image_functions.get_image_date`: missing (or falsy) date tag raises
RuntimeError; a date of length ≥ 20 whose slice [11:13] equals "24" is
repaired to hour 00 with a warning; the (possibly repaired) string is
parsed, and a parse failure raises
ValueError with the f-string message naming creation_date (in single quotes) and path. -/
def get_image_date (exifData : ExifDict) (path : List Char) :
    Except PyError PyDateTime × List LogEvent :=
  match List.lookup ImageIFD_DateTime exifData.zeroth with
  | none => (.error (.runtimeError ("No creation date found for image: ".toList ++ path)), [])
  | some creationDate =>
      if creationDate.isEmpty then
        (.error (.runtimeError ("No creation date found for image: ".toList ++ path)), [])
      else
        match (if 20 ≤ creationDate.length ∧ pySlice creationDate 11 13 = ['2', '4'] then
                 (creationDate.take 11 ++ '0' :: '0' :: creationDate.drop 13,
                  [LogEvent.warnInvalidHour24 creationDate path])
               else (creationDate, ([] : List LogEvent))) with
        | (cd, log1) =>
            match pyStrptimeExif cd with
            | some d => (.ok d, log1)
            | none =>
                (.error (.valueError ("Invalid datetime format ".toList ++ quoteChar ::
                   cd ++ quoteChar :: " in ".toList ++ path)), log1)

/-- Model of `image_functions.replace_exif`, container-level effect: identical
tag writes to `EXIFHandler.update_exif_date`. -/
def replace_exif (exifDict : ExifDict) (datetimeObject : PyDateTime) : ExifDict :=
  let dateStr := pyStrftimeExif datetimeObject
  { zeroth := setTag exifDict.zeroth ImageIFD_DateTime dateStr,
    exif := setTag (setTag exifDict.exif ExifIFD_DateTimeOriginal dateStr)
              ExifIFD_DateTimeDigitized dateStr }

end ImageFunctions

/- ## main.py -/

/-- Abstraction of one candidate file seen by the batch processor: its
path, the outcome of opening it and decoding its EXIF block
(`.error e` = the raised exception), and whether re-serialising /
writing the EXIF block back fails. -/
structure FileModel where
  path : List Char
  readResult : Except PyError ExifDict
  writeError : Option PyError

namespace EXIFHandler

/-- Model of `EXIFHandler.get_image_date` applied to a file path: open the image
(propagating failures) and read its EXIF data. -/
def get_image_date_file (dflt : PyDateTime) (f : FileModel) :
    Except PyError PyDateTime × List LogEvent :=
  match f.readResult with
  | .error e => (.error e, [])
  | .ok exifData => get_image_date dflt exifData f.path

/-- Model of `EXIFHandler.update_exif_date` applied to a file path: any exception
while loading, encoding or writing is wrapped into
RuntimeError(f"Failed to update {file_path}"); on success an info
message is logged. -/
def update_exif_date_file (f : FileModel) (_newDate : PyDateTime) :
    Except PyError Unit × List LogEvent :=
  match f.readResult with
  | .error _ => (.error (.runtimeError ("Failed to update ".toList ++ f.path)), [])
  | .ok _ =>
      match f.writeError with
      | some _ => (.error (.runtimeError ("Failed to update ".toList ++ f.path)), [])
      | none => (.ok (), [.infoUpdatedExifDate f.path])

end EXIFHandler

/-- One `print` call of main.py with its interpolated arguments:
`foundDate d p` is print(f"Found date {d} for {p}"); `updating p d` is
print(f"Updating {p} to {d}"); `errorProcessing p m` is
print(f"Error processing {p}: {m}"); `processedSummary n u` is
the summary print with both counters. -/
inductive OutEvent where
  | foundDate (d : PyDateTime) (path : List Char)
  | updating (path : List Char) (d : PyDateTime)
  | errorProcessing (path : List Char) (msg : List Char)
  | processedSummary (fileCount updatedCount : Nat)
deriving DecidableEq

/-- The mutable state of one `process_directory` run: the two counters
and the console / log output so far. -/
structure ProcState where
  fileCount : Nat
  updatedCount : Nat
  output : List OutEvent
  log : List LogEvent

namespace EXIFProcessor

/-- Model of `EXIFProcessor._needs_update`: extract the date (the handler is
constructed as `EXIFHandler()`, so with the default sentinel), print it,
and return `file_date > self.max_date`. -/
def needs_update (maxDate : PyDateTime) (f : FileModel) :
    Except PyError Bool × List OutEvent × List LogEvent :=
  match EXIFHandler.get_image_date_file EXIFHandler.defaultDate f with
  | (.error e, lg) => (.error e, [], lg)
  | (.ok d, lg) => (.ok (pyGt d maxDate), [.foundDate d f.path], lg)

/-- One iteration of the loop body of `EXIFProcessor.process_directory`:
count the file, check `_needs_update`, on `True` run `_update_file`
(print then update, counting successes), and catch any exception,
reporting it via `_handle_error` with the file path and `str(e)`. -/
def process_file (maxDate changeDate : PyDateTime) (st : ProcState) (f : FileModel) :
    ProcState :=
  let st1 : ProcState := { st with fileCount := st.fileCount + 1 }
  match needs_update maxDate f with
  | (.error e, evs, lg) =>
      { st1 with output := st1.output ++ evs ++ [.errorProcessing f.path e.msg],
                 log := st1.log ++ lg }
  | (.ok true, evs, lg) =>
      match EXIFHandler.update_exif_date_file f changeDate with
      | (.ok _, lg2) =>
          { st1 with updatedCount := st1.updatedCount + 1,
                     output := st1.output ++ evs ++ [.updating f.path changeDate],
                     log := st1.log ++ lg ++ lg2 }
      | (.error e, lg2) =>
          { st1 with
              output := st1.output ++ evs ++
                [.updating f.path changeDate, .errorProcessing f.path e.msg],
              log := st1.log ++ lg ++ lg2 }
  | (.ok false, evs, lg) =>
      { st1 with output := st1.output ++ evs, log := st1.log ++ lg }

/-- Model of `EXIFProcessor.process_directory`: fold the loop body over the
candidate files starting from zeroed counters, then print the summary. -/
def process_directory (maxDate changeDate : PyDateTime) (files : List FileModel) : ProcState :=
  match files.foldl (process_file maxDate changeDate) ⟨0, 0, [], []⟩ with
  | st => { st with output := st.output ++ [.processedSummary st.fileCount st.updatedCount] }

/-- Specification-side per-file predicate: this file ends the loop body
in the `updated` state (date extracted, above threshold, update
succeeded). -/
def file_updated (maxDate changeDate : PyDateTime) (f : FileModel) : Bool :=
  match (needs_update maxDate f).1 with
  | .ok true =>
      match (EXIFHandler.update_exif_date_file f changeDate).1 with
      | .ok _ => true
      | .error _ => false
  | _ => false

/-- Specification-side per-file observation: the exception caught by the
per-file handler, if any. -/
def file_error (maxDate changeDate : PyDateTime) (f : FileModel) : Option PyError :=
  match (needs_update maxDate f).1 with
  | .error e => some e
  | .ok true =>
      match (EXIFHandler.update_exif_date_file f changeDate).1 with
      | .ok _ => none
      | .error e => some e
  | .ok false => none

end EXIFProcessor

/-- The constant `MAX_DATE` from `main()`: `datetime(2025, 1, 1, 1, 1, 1)`. -/
def mainMaxDate : PyDateTime := ⟨2025, 1, 1, 1, 1, 1, 0⟩

/-- The constant `CHANGE_DATE` from `main()`: `datetime(2025, 1, 1)`. -/
def mainChangeDate : PyDateTime := ⟨2025, 1, 1, 0, 0, 0, 0⟩

/-- Whether `needle` occurs as a contiguous substring of `hay`. -/
def containsSub (needle hay : List Char) : Bool :=
  hay.tails.any (fun t => needle.isPrefixOf t)

/- ## Round-trip lemmas: strptime after strftime -/

theorem isDigit_digitChar (q : Nat) (hq : q < 10) : isDigit (digitChar q) = true := by
  interval_cases q <;> decide

theorem digitVal_digitChar (q : Nat) (hq : q < 10) : digitVal (digitChar q) = q := by
  interval_cases q <;> decide

theorem matchDigitsAux_digit {α : Type} (n acc q : Nat) (hq : q < 10)
    (k : Nat → List Char → Option α) (l : List Char) :
    matchDigitsAux (n + 1) acc k (digitChar q :: l) = matchDigitsAux n (10 * acc + q) k l := by
  simp [matchDigitsAux, isDigit_digitChar q hq, digitVal_digitChar q hq]

theorem matchDigitsAux_padFour {α : Type} (y : Nat) (hy : y ≤ 9999)
    (k : Nat → List Char → Option α) (rest : List Char) :
    matchDigitsAux 4 0 k (padFour y ++ rest) = k y rest := by
  have e : padFour y ++ rest =
      digitChar (y / 1000) :: digitChar (y / 100 % 10) :: digitChar (y / 10 % 10) ::
        digitChar (y % 10) :: rest := rfl
  rw [e, matchDigitsAux_digit _ _ _ (by omega), matchDigitsAux_digit _ _ _ (by omega),
    matchDigitsAux_digit _ _ _ (by omega), matchDigitsAux_digit _ _ _ (by omega)]
  have : 10 * (10 * (10 * (10 * 0 + y / 1000) + y / 100 % 10) + y / 10 % 10) + y % 10 = y := by
    omega
  rw [this, matchDigitsAux]

theorem matchLit_same {α : Type} (ch : Char) (k : List Char → Option α) (l : List Char) :
    matchLit ch k (ch :: l) = k l := by
  simp [matchLit]

theorem matchField_two {α : Type} (two : Char → Char → Bool) (one : Char → Bool)
    (k : Nat → List Char → Option α) (a b : Char) (rest : List Char) (r : α)
    (h2 : two a b = true) (hk : k (10 * digitVal a + digitVal b) rest = some r) :
    matchField two one k (a :: b :: rest) = some r := by
  simp [matchField, h2, hk]

theorem matchField_padTwo {α : Type} (two : Char → Char → Bool) (one : Char → Bool)
    (k : Nat → List Char → Option α) (n : Nat) (hn : n ≤ 99) (rest : List Char) (r : α)
    (h2 : two (digitChar (n / 10)) (digitChar (n % 10)) = true)
    (hk : k n rest = some r) :
    matchField two one k (padTwo n ++ rest) = some r := by
  have e : padTwo n ++ rest = digitChar (n / 10) :: digitChar (n % 10) :: rest := rfl
  rw [e]
  refine matchField_two _ _ _ _ _ _ _ h2 ?_
  rw [digitVal_digitChar _ (by omega), digitVal_digitChar _ (by omega)]
  have : 10 * (n / 10) + n % 10 = n := by omega
  rw [this]
  exact hk

theorem monthTwo_padTwo (n : Nat) (h1 : 1 ≤ n) (h2 : n ≤ 12) :
    monthTwo (digitChar (n / 10)) (digitChar (n % 10)) = true := by
  interval_cases n <;> decide

theorem dayTwo_padTwo (n : Nat) (h1 : 1 ≤ n) (h2 : n ≤ 31) :
    dayTwo (digitChar (n / 10)) (digitChar (n % 10)) = true := by
  interval_cases n <;> decide

theorem hourTwo_padTwo (n : Nat) (h2 : n ≤ 23) :
    hourTwo (digitChar (n / 10)) (digitChar (n % 10)) = true := by
  interval_cases n <;> decide

theorem minuteTwo_padTwo (n : Nat) (h2 : n ≤ 59) :
    minuteTwo (digitChar (n / 10)) (digitChar (n % 10)) = true := by
  interval_cases n <;> decide

theorem secondTwo_padTwo (n : Nat) (h2 : n ≤ 59) :
    secondTwo (digitChar (n / 10)) (digitChar (n % 10)) = true := by
  interval_cases n <;> decide

theorem stepSec_padTwo (y mo da h mi s : Nat) (hs : s ≤ 59) :
    stepSec y mo da h mi (padTwo s) = some ⟨y, mo, da, h, mi, s⟩ := by
  have e : padTwo s = padTwo s ++ [] := by simp
  rw [stepSec, e]
  exact matchField_padTwo _ _ _ s (by omega) [] _ (secondTwo_padTwo s hs) rfl

theorem stepMin_padTwo (y mo da h mi s : Nat) (hmi : mi ≤ 59) (hs : s ≤ 59) :
    stepMin y mo da h (padTwo mi ++ ':' :: padTwo s) = some ⟨y, mo, da, h, mi, s⟩ := by
  rw [stepMin]
  refine matchField_padTwo _ _ _ mi (by omega) _ _ (minuteTwo_padTwo mi hmi) ?_
  rw [matchLit_same]
  exact stepSec_padTwo y mo da h mi s hs

theorem stepHour_padTwo (y mo da h mi s : Nat) (hh : h ≤ 23) (hmi : mi ≤ 59) (hs : s ≤ 59) :
    stepHour y mo da (padTwo h ++ ':' :: (padTwo mi ++ ':' :: padTwo s))
      = some ⟨y, mo, da, h, mi, s⟩ := by
  rw [stepHour]
  refine matchField_padTwo _ _ _ h (by omega) _ _ (hourTwo_padTwo h hh) ?_
  rw [matchLit_same]
  exact stepMin_padTwo y mo da h mi s hmi hs

theorem stepDay_padTwo (y mo da h mi s : Nat) (hda1 : 1 ≤ da) (hda2 : da ≤ 31)
    (hh : h ≤ 23) (hmi : mi ≤ 59) (hs : s ≤ 59) :
    stepDay y mo (padTwo da ++ ' ' :: (padTwo h ++ ':' :: (padTwo mi ++ ':' :: padTwo s)))
      = some ⟨y, mo, da, h, mi, s⟩ := by
  rw [stepDay]
  refine matchField_padTwo _ _ _ da (by omega) _ _ (dayTwo_padTwo da hda1 hda2) ?_
  have e : matchSpacesPlus (stepHour y mo da)
      (' ' :: (padTwo h ++ ':' :: (padTwo mi ++ ':' :: padTwo s)))
      = matchSpacesStar (stepHour y mo da) (padTwo h ++ ':' :: (padTwo mi ++ ':' :: padTwo s)) := by
    simp [matchSpacesPlus, isPySpace]
  rw [e]
  have e2 : padTwo h ++ ':' :: (padTwo mi ++ ':' :: padTwo s)
      = digitChar (h / 10) :: (digitChar (h % 10) :: ':' :: (padTwo mi ++ ':' :: padTwo s)) := rfl
  rw [e2, matchSpacesStar]
  have hsp : isPySpace (digitChar (h / 10)) = false := by
    have : h / 10 < 10 := by omega
    interval_cases hd : h / 10 <;> decide
  rw [hsp]
  simp only [Bool.false_eq_true, if_false]
  rw [← e2]
  exact stepHour_padTwo y mo da h mi s hh hmi hs

theorem stepMon_padTwo (y mo da h mi s : Nat) (hmo1 : 1 ≤ mo) (hmo2 : mo ≤ 12)
    (hda1 : 1 ≤ da) (hda2 : da ≤ 31) (hh : h ≤ 23) (hmi : mi ≤ 59) (hs : s ≤ 59) :
    stepMon y (padTwo mo ++ ':' :: (padTwo da ++ ' ' ::
        (padTwo h ++ ':' :: (padTwo mi ++ ':' :: padTwo s))))
      = some ⟨y, mo, da, h, mi, s⟩ := by
  rw [stepMon]
  refine matchField_padTwo _ _ _ mo (by omega) _ _ (monthTwo_padTwo mo hmo1 hmo2) ?_
  rw [matchLit_same]
  exact stepDay_padTwo y mo da h mi s hda1 hda2 hh hmi hs

theorem strptimeExifChars_strftime (d : PyDateTime) (_hy1 : 1 ≤ d.year) (hy2 : d.year ≤ 9999)
    (hmo1 : 1 ≤ d.month) (hmo2 : d.month ≤ 12) (hda1 : 1 ≤ d.day) (hda2 : d.day ≤ 31)
    (hh : d.hour ≤ 23) (hmi : d.minute ≤ 59) (hs : d.second ≤ 59) :
    strptimeExifChars (pyStrftimeExif d)
      = some ⟨d.year, d.month, d.day, d.hour, d.minute, d.second⟩ := by
  rw [pyStrftimeExif, strptimeExifChars, matchDigitsAux_padFour d.year hy2]
  rw [matchLit_same]
  exact stepMon_padTwo d.year d.month d.day d.hour d.minute d.second hmo1 hmo2 hda1 hda2 hh hmi hs

/-- Parsing inverts formatting for every constructor-valid datetime,
truncating to second precision. -/
theorem pyStrptimeExif_strftime (d : PyDateTime) (hv : d.Valid) :
    pyStrptimeExif (pyStrftimeExif d) = some { d with microsecond := 0 } := by
  obtain ⟨h1, h2, h3, h4, h5, h6, h7, h8, h9, _⟩ := hv
  have hda31 : d.day ≤ 31 := by
    have : daysInMonth d.year d.month ≤ 31 := by
      unfold daysInMonth
      split
      · split <;> omega
      · split <;> omega
    omega
  rw [pyStrptimeExif, strptimeExifChars_strftime d h1 h2 h3 h4 h5 hda31 h7 h8 h9]
  simp only []
  rw [if_pos ⟨h1, h6, h9⟩]

/- ## The extractors on canonical strings -/

theorem pyStrftimeExif_length (d : PyDateTime) : (pyStrftimeExif d).length = 19 := by
  simp [pyStrftimeExif, padFour, padTwo]

theorem pySlice_strftime_hour (d : PyDateTime) :
    pySlice (pyStrftimeExif d) 11 13 = padTwo d.hour := rfl

theorem padTwo_hour_mem (h : Nat) (hh : h ≤ 23) : padTwo h ∈ VALID_HOURS := by
  interval_cases h <;> decide

theorem pyStrftimeExif_isEmpty (d : PyDateTime) : (pyStrftimeExif d).isEmpty = false := rfl

theorem fix_invalid_hours_canonical (d : PyDateTime) (hh : d.hour ≤ 23) (image : List Char) :
    EXIFHandler.fix_invalid_hours (pyStrftimeExif d) image = (pyStrftimeExif d, []) := by
  rw [EXIFHandler.fix_invalid_hours, if_neg]
  intro hnot
  exact hnot (pySlice_strftime_hour d ▸ padTwo_hour_mem d.hour hh)

theorem handler_get_image_date_canonical (dflt : PyDateTime) (exifData : ExifDict)
    (image : List Char) (d : PyDateTime) (hv : d.Valid)
    (hl : List.lookup ImageIFD_DateTime exifData.zeroth = some (pyStrftimeExif d)) :
    EXIFHandler.get_image_date dflt exifData image = (.ok { d with microsecond := 0 }, []) := by
  have hh : d.hour ≤ 23 := hv.2.2.2.2.2.2.1
  unfold EXIFHandler.get_image_date
  rw [hl]
  simp only [pyStrftimeExif_isEmpty, Bool.false_eq_true, if_false,
    fix_invalid_hours_canonical d hh image, EXIFHandler.parse_datetime,
    pyStrptimeExif_strftime d hv, List.nil_append]

theorem funcs_get_image_date_canonical (exifData : ExifDict) (path : List Char)
    (d : PyDateTime) (hv : d.Valid)
    (hl : List.lookup ImageIFD_DateTime exifData.zeroth = some (pyStrftimeExif d)) :
    ImageFunctions.get_image_date exifData path = (.ok { d with microsecond := 0 }, []) := by
  unfold ImageFunctions.get_image_date
  rw [hl]
  have hguard : ¬(20 ≤ (pyStrftimeExif d).length ∧
      pySlice (pyStrftimeExif d) 11 13 = ['2', '4']) := by
    rw [pyStrftimeExif_length]
    omega
  simp only [pyStrftimeExif_isEmpty, Bool.false_eq_true, if_false, if_neg hguard,
    pyStrptimeExif_strftime d hv]

/- ## Soundness: a successful match decomposes the input

These lemmas recover, from a successful regex match, the shape of the
input string: four year digits, a colon, a 1-2 character month, a
colon, a 1-2 character day, a nonempty whitespace run, a 1-2 character
hour, and so on.  They are used to show that certain strings can never
match. -/

theorem matchDigitsAux_sound {α : Type} :
    ∀ (n acc : Nat) (k : Nat → List Char → Option α) (l : List Char) (r : α),
      matchDigitsAux n acc k l = some r →
      ∃ ds rest v, l = ds ++ rest ∧ ds.length = n ∧ k v rest = some r := by
  intro n
  induction n with
  | zero =>
      intro acc k l r h
      exact ⟨[], l, acc, rfl, rfl, h⟩
  | succ n ih =>
      intro acc k l r h
      match l with
      | [] => exact absurd h (by simp [matchDigitsAux])
      | c :: rest =>
          simp only [matchDigitsAux] at h
          split at h
          · obtain ⟨ds, rest2, v, he, hlen, hk⟩ := ih _ _ _ _ h
            exact ⟨c :: ds, rest2, v, by rw [List.cons_append, he], by simp [hlen], hk⟩
          · exact absurd h (by simp)

theorem matchLit_sound {α : Type} (ch : Char) (k : List Char → Option α) (l : List Char) (r : α)
    (h : matchLit ch k l = some r) : ∃ rest, l = ch :: rest ∧ k rest = some r := by
  match l with
  | [] => exact absurd h (by simp [matchLit])
  | c :: rest =>
      simp only [matchLit] at h
      split at h
      · next hc => exact ⟨rest, by rw [hc], h⟩
      · exact absurd h (by simp)

theorem matchField_sound {α : Type} (two : Char → Char → Bool) (one : Char → Bool)
    (k : Nat → List Char → Option α) (l : List Char) (r : α)
    (h : matchField two one k l = some r) :
    ∃ ds rest v, l = ds ++ rest ∧ (ds.length = 1 ∨ ds.length = 2) ∧ k v rest = some r := by
  match l with
  | [] => exact absurd h (by simp [matchField])
  | [a] =>
      simp only [matchField] at h
      split at h
      · exact ⟨[a], [], digitVal a, rfl, Or.inl rfl, h⟩
      · exact absurd h (by simp)
  | a :: b :: rest =>
      simp only [matchField] at h
      split at h
      · cases hk : k (10 * digitVal a + digitVal b) rest with
        | some r2 =>
            simp only [hk] at h
            exact ⟨[a, b], rest, 10 * digitVal a + digitVal b, rfl, Or.inr rfl, hk.trans h⟩
        | none =>
            simp only [hk] at h
            split at h
            · exact ⟨[a], b :: rest, digitVal a, rfl, Or.inl rfl, h⟩
            · exact absurd h (by simp)
      · split at h
        · exact ⟨[a], b :: rest, digitVal a, rfl, Or.inl rfl, h⟩
        · exact absurd h (by simp)

theorem matchSpacesStar_sound {α : Type} (k : List Char → Option α) :
    ∀ (l : List Char) (r : α), matchSpacesStar k l = some r →
      ∃ w rest, l = w ++ rest ∧ (∀ c ∈ w, isPySpace c = true) ∧ k rest = some r := by
  intro l
  induction l with
  | nil =>
      intro r h
      exact ⟨[], [], rfl, by simp, by simpa [matchSpacesStar] using h⟩
  | cons c rest ih =>
      intro r h
      simp only [matchSpacesStar] at h
      split at h
      · next hsp =>
          cases hrec : matchSpacesStar k rest with
          | some r2 =>
              simp only [hrec] at h
              obtain ⟨w, rest2, he, hw, hk⟩ := ih r2 hrec
              refine ⟨c :: w, rest2, by rw [List.cons_append, he], ?_, hk.trans h⟩
              intro x hx
              rcases List.mem_cons.mp hx with hx | hx
              · rw [hx]; exact hsp
              · exact hw x hx
          | none =>
              simp only [hrec] at h
              exact ⟨[], c :: rest, rfl, by simp, h⟩
      · exact ⟨[], c :: rest, rfl, by simp, h⟩

theorem matchSpacesPlus_sound {α : Type} (k : List Char → Option α) (l : List Char) (r : α)
    (h : matchSpacesPlus k l = some r) :
    ∃ w rest, l = w ++ rest ∧ w ≠ [] ∧ (∀ c ∈ w, isPySpace c = true) ∧ k rest = some r := by
  match l with
  | [] => exact absurd h (by simp [matchSpacesPlus])
  | c :: rest =>
      simp only [matchSpacesPlus] at h
      split at h
      · next hsp =>
          obtain ⟨w, rest2, he, hw, hk⟩ := matchSpacesStar_sound k rest _ h
          refine ⟨c :: w, rest2, by rw [List.cons_append, he], by simp, ?_, hk⟩
          intro x hx
          rcases List.mem_cons.mp hx with hx | hx
          · rw [hx]; exact hsp
          · exact hw x hx
      · exact absurd h (by simp)

theorem strptimeExifChars_sound (l : List Char) (t : STime)
    (h : strptimeExifChars l = some t) :
    ∃ ys ms ds w hs mis ss,
      l = ys ++ ':' :: (ms ++ ':' :: (ds ++ (w ++ (hs ++ ':' :: (mis ++ ':' :: ss))))) ∧
      ys.length = 4 ∧ (ms.length = 1 ∨ ms.length = 2) ∧ (ds.length = 1 ∨ ds.length = 2) ∧
      w ≠ [] ∧ (∀ c ∈ w, isPySpace c = true) ∧
      (hs.length = 1 ∨ hs.length = 2) ∧ (mis.length = 1 ∨ mis.length = 2) ∧
      (ss.length = 1 ∨ ss.length = 2) := by
  rw [strptimeExifChars] at h
  obtain ⟨ys, l1, y, he1, hy, h1⟩ := matchDigitsAux_sound 4 0 _ l t h
  obtain ⟨l2, he2, h2⟩ := matchLit_sound ':' _ l1 t h1
  rw [stepMon] at h2
  obtain ⟨ms, l3, mo, he3, hm, h3⟩ := matchField_sound _ _ _ l2 t h2
  obtain ⟨l4, he4, h4⟩ := matchLit_sound ':' _ l3 t h3
  rw [stepDay] at h4
  obtain ⟨ds, l5, da, he5, hd, h5⟩ := matchField_sound _ _ _ l4 t h4
  obtain ⟨w, l6, he6, hwne, hwsp, h6⟩ := matchSpacesPlus_sound _ l5 t h5
  rw [stepHour] at h6
  obtain ⟨hs, l7, hv, he7, hh, h7⟩ := matchField_sound _ _ _ l6 t h6
  obtain ⟨l8, he8, h8⟩ := matchLit_sound ':' _ l7 t h7
  rw [stepMin] at h8
  obtain ⟨mis, l9, miv, he9, hmi, h9⟩ := matchField_sound _ _ _ l8 t h8
  obtain ⟨l10, he10, h10⟩ := matchLit_sound ':' _ l9 t h9
  rw [stepSec] at h10
  obtain ⟨ss, l11, sv, he11, hss, h11⟩ := matchField_sound _ _ _ l10 t h10
  replace h11 : (if l11 = [] then some (STime.mk y mo da hv miv sv) else none) = some t := h11
  have hnil : l11 = [] := by
    by_contra hne
    rw [if_neg hne] at h11
    exact absurd h11 (by simp)
  refine ⟨ys, ms, ds, w, hs, mis, ss, ?_, hy, hm, hd, hwne, hwsp, hh, hmi, hss⟩
  rw [he1, he2, he3, he4, he5, he6, he7, he8, he9, he10, he11, hnil]
  simp

/-- No string of length ≥ 20 carrying the repaired hour "00" at offsets
11-12 can match the format: the match would need a multi-character
whitespace run, which the digit at offset 11 or the colon positions of
the time field rule out. -/
theorem strptimeExifChars_none_of_long00 (l : List Char) (hlen : 20 ≤ l.length)
    (h11 : l[11]? = some '0') (h12 : l[12]? = some '0') :
    strptimeExifChars l = none := by
  cases hopt : strptimeExifChars l with
  | none => rfl
  | some t =>
      exfalso
      obtain ⟨ys, ms, ds, w, hs, mis, ss, he, hy, hm, hd, hwne, hwsp, hh, hmi, hss⟩ :=
        strptimeExifChars_sound l t hopt
      set P := ys ++ ':' :: (ms ++ ':' :: ds) with hP
      set B := hs ++ ':' :: (mis ++ ':' :: ss) with hB
      have heP : l = P ++ (w ++ B) := by
        rw [he, hP, hB]
        simp [List.append_assoc]
      have hPlen : P.length = 6 + ms.length + ds.length := by
        rw [hP]
        simp [List.length_append, hy]
        omega
      have hBlen : B.length = hs.length + 1 + mis.length + 1 + ss.length := by
        rw [hB]
        simp [List.length_append]
        omega
      have hllen : l.length = P.length + w.length + B.length := by
        rw [heP]
        simp [List.length_append]
        omega
      have hwlen : 1 ≤ w.length := List.length_pos.mpr hwne
      have hP8 : 8 ≤ P.length := by omega
      have hP10 : P.length ≤ 10 := by
        rcases hm with hm | hm <;> rcases hd with hd | hd <;> omega
      by_cases hcase : 11 < P.length + w.length
      · have h1 : l[11]? = (w ++ B)[11 - P.length]? := by
          rw [heP]
          exact List.getElem?_append_right (by omega)
        have h2 : (w ++ B)[11 - P.length]? = w[11 - P.length]? := by
          exact List.getElem?_append_left (by omega)
        have hmem : '0' ∈ w := by
          have h3 : w[11 - P.length]? = some '0' := by
            rw [← h2, ← h1]
            exact h11
          exact List.getElem?_mem h3
        have := hwsp '0' hmem
        exact absurd this (by decide)
      · have hhs2 : hs.length ≤ 2 := by rcases hh with h | h <;> omega
        have hmis2 : mis.length ≤ 2 := by rcases hmi with h | h <;> omega
        have hss2 : ss.length ≤ 2 := by rcases hss with h | h <;> omega
        have hw2 : 2 ≤ w.length := by omega
        have hBidx : ∀ k, P.length + w.length ≤ k →
            l[k]? = B[k - P.length - w.length]? := by
          intro k hk
          rw [heP, List.getElem?_append_right (by omega),
            List.getElem?_append_right (by omega)]
        have hstart : P.length + w.length = 10 ∨ P.length + w.length = 11 := by omega
        rcases hh with hhs | hhs
        · have hB1 : B[1]? = some ':' := by
            rw [hB, List.getElem?_append_right (by omega), hhs]
            simp
          rcases hstart with hst | hst
          · rw [hBidx 11 (by omega)] at h11
            have : (11 : Nat) - P.length - w.length = 1 := by omega
            rw [this, hB1] at h11
            exact absurd h11 (by decide)
          · rw [hBidx 12 (by omega)] at h12
            have : (12 : Nat) - P.length - w.length = 1 := by omega
            rw [this, hB1] at h12
            exact absurd h12 (by decide)
        · rcases hstart with hst | hst
          · have hB2 : B[2]? = some ':' := by
              rw [hB, List.getElem?_append_right (by omega), hhs]
              simp
            rw [hBidx 12 (by omega)] at h12
            have : (12 : Nat) - P.length - w.length = 2 := by omega
            rw [this, hB2] at h12
            exact absurd h12 (by decide)
          · omega

/- ## Behaviour of the extractors on the remaining branches -/

/-- The hour repair of a string of length ≥ 20 yields a string of the
same length ≥ 20 with "00" at offsets 11-12, which therefore fails to
parse. -/
theorem repaired_long_no_parse (s : List Char) (hlen : 20 ≤ s.length) :
    pyStrptimeExif (s.take 11 ++ '0' :: '0' :: s.drop 13) = none := by
  set r := s.take 11 ++ '0' :: '0' :: s.drop 13 with hrdef
  have htake : (s.take 11).length = 11 := by
    simp
    omega
  have hr11 : r[11]? = some '0' := by
    rw [hrdef, List.getElem?_append_right (by omega), htake]
    simp
  have hr12 : r[12]? = some '0' := by
    rw [hrdef, List.getElem?_append_right (by omega), htake]
    simp
  have hrlen : 20 ≤ r.length := by
    rw [hrdef]
    simp
    omega
  rw [pyStrptimeExif, strptimeExifChars_none_of_long00 r hrlen hr11 hr12]

theorem mem_VALID_HOURS_length (x : List Char) (hx : x ∈ VALID_HOURS) : x.length = 2 := by
  fin_cases hx <;> rfl

theorem slice24_not_valid_hour : ['2', '4'] ∉ VALID_HOURS := by decide

theorem pySlice_short_not_valid (s : List Char) (h : s.length < 13) :
    pySlice s 11 13 ∉ VALID_HOURS := by
  intro hmem
  have h2 := mem_VALID_HOURS_length _ hmem
  have hlen : (pySlice s 11 13).length = min 2 (s.length - 11) := by
    simp [pySlice]
  omega

theorem isEmpty_false_of_length (s : List Char) (h : 0 < s.length) : s.isEmpty = false := by
  cases s with
  | nil => simp at h
  | cons c rest => rfl

/-- Behaviour of `EXIFHandler.get_image_date` when the creation-date tag is missing:
warn and return the default date. -/
theorem handler_get_image_date_missing (dflt : PyDateTime) (exifData : ExifDict)
    (image : List Char)
    (hl : List.lookup ImageIFD_DateTime exifData.zeroth = none) :
    EXIFHandler.get_image_date dflt exifData image = (.ok dflt, [.warnNoExifDate image]) := by
  unfold EXIFHandler.get_image_date
  rw [hl]

/-- Behaviour of `image_functions.get_image_date` when the creation-date tag is
missing: raise RuntimeError naming the path. -/
theorem funcs_get_image_date_missing (exifData : ExifDict) (path : List Char)
    (hl : List.lookup ImageIFD_DateTime exifData.zeroth = none) :
    ImageFunctions.get_image_date exifData path =
      (.error (.runtimeError ("No creation date found for image: ".toList ++ path)), []) := by
  unfold ImageFunctions.get_image_date
  rw [hl]

/-- Behaviour of `EXIFHandler.get_image_date` on a present date string whose repaired
form fails to parse: log an error and raise ValueError naming only the
image. -/
theorem handler_get_image_date_parse_fail (dflt : PyDateTime) (exifData : ExifDict)
    (image s fixed : List Char) (lg : List LogEvent)
    (hl : List.lookup ImageIFD_DateTime exifData.zeroth = some s)
    (hne : s.isEmpty = false)
    (hfix : EXIFHandler.fix_invalid_hours s image = (fixed, lg))
    (hparse : pyStrptimeExif fixed = none) :
    EXIFHandler.get_image_date dflt exifData image =
      (.error (.valueError ("Invalid date format in ".toList ++ image)),
       lg ++ [.errInvalidDateFormat fixed image]) := by
  unfold EXIFHandler.get_image_date
  rw [hl]
  simp only [hne, Bool.false_eq_true, if_false, hfix, EXIFHandler.parse_datetime, hparse]

/-- Behaviour of `EXIFHandler.get_image_date` on a present date string whose repaired
form parses: return the parsed value with only the repair log. -/
theorem handler_get_image_date_parse_ok (dflt : PyDateTime) (exifData : ExifDict)
    (image s fixed : List Char) (lg : List LogEvent) (d : PyDateTime)
    (hl : List.lookup ImageIFD_DateTime exifData.zeroth = some s)
    (hne : s.isEmpty = false)
    (hfix : EXIFHandler.fix_invalid_hours s image = (fixed, lg))
    (hparse : pyStrptimeExif fixed = some d) :
    EXIFHandler.get_image_date dflt exifData image = (.ok d, lg) := by
  unfold EXIFHandler.get_image_date
  rw [hl]
  simp only [hne, Bool.false_eq_true, if_false, hfix, EXIFHandler.parse_datetime, hparse,
    List.append_nil]

/-- Behaviour of `image_functions.get_image_date` on a present date string shorter
than 20 characters: hour repair is skipped, no warning is emitted, and
a parse failure raises ValueError naming the string and the path. -/
theorem funcs_get_image_date_short_fail (exifData : ExifDict) (path s : List Char)
    (hl : List.lookup ImageIFD_DateTime exifData.zeroth = some s)
    (hne : s.isEmpty = false) (hlen : s.length < 20)
    (hparse : pyStrptimeExif s = none) :
    ImageFunctions.get_image_date exifData path =
      (.error (.valueError ("Invalid datetime format ".toList ++ quoteChar ::
         s ++ quoteChar :: " in ".toList ++ path)), []) := by
  unfold ImageFunctions.get_image_date
  rw [hl]
  have hguard : ¬(20 ≤ s.length ∧ pySlice s 11 13 = ['2', '4']) := by omega
  simp only [hne, Bool.false_eq_true, if_false, if_neg hguard, hparse]

/-- Behaviour of `image_functions.get_image_date` on a date string of length ≥ 20
with "24" at offsets 11-12: repair with exactly one warning naming the
original string, then unavoidably fail to parse and raise ValueError
naming the repaired string and the path. -/
theorem funcs_get_image_date_long24 (exifData : ExifDict) (path s : List Char)
    (hl : List.lookup ImageIFD_DateTime exifData.zeroth = some s)
    (hlen : 20 ≤ s.length) (hsl : pySlice s 11 13 = ['2', '4']) :
    ImageFunctions.get_image_date exifData path =
      (.error (.valueError ("Invalid datetime format ".toList ++ quoteChar ::
         (s.take 11 ++ '0' :: '0' :: s.drop 13) ++ quoteChar :: " in ".toList ++ path)),
       [.warnInvalidHour24 s path]) := by
  unfold ImageFunctions.get_image_date
  rw [hl]
  have hne : s.isEmpty = false := isEmpty_false_of_length s (by omega)
  simp only [hne, Bool.false_eq_true, if_false, if_pos (And.intro hlen hsl),
    repaired_long_no_parse s hlen]

/-- Behaviour of `EXIFHandler.get_image_date` on a date string of length ≥ 20 with
"24" at offsets 11-12: repair with exactly one warning naming the
original string, then unavoidably fail to parse and raise ValueError
naming only the image. -/
theorem handler_get_image_date_long24 (dflt : PyDateTime) (exifData : ExifDict)
    (image s : List Char)
    (hl : List.lookup ImageIFD_DateTime exifData.zeroth = some s)
    (hlen : 20 ≤ s.length) (hsl : pySlice s 11 13 = ['2', '4']) :
    EXIFHandler.get_image_date dflt exifData image =
      (.error (.valueError ("Invalid date format in ".toList ++ image)),
       [.warnInvalidHour s image,
        .errInvalidDateFormat (s.take 11 ++ '0' :: '0' :: s.drop 13) image]) := by
  have hne : s.isEmpty = false := isEmpty_false_of_length s (by omega)
  have hfix : EXIFHandler.fix_invalid_hours s image =
      (s.take 11 ++ '0' :: '0' :: s.drop 13, [.warnInvalidHour s image]) := by
    rw [EXIFHandler.fix_invalid_hours, if_pos]
    rw [hsl]
    exact slice24_not_valid_hour
  exact handler_get_image_date_parse_fail dflt exifData image s _ _ hl hne hfix
    (repaired_long_no_parse s hlen)

/- ## Behaviour of the batch processor -/

theorem process_file_err (maxDate changeDate : PyDateTime) (st : ProcState) (f : FileModel)
    (e : PyError) (evs0 : List OutEvent) (lg0 : List LogEvent)
    (hnu : EXIFProcessor.needs_update maxDate f = (.error e, evs0, lg0)) :
    EXIFProcessor.process_file maxDate changeDate st f =
      { st with fileCount := st.fileCount + 1,
                output := st.output ++ evs0 ++ [.errorProcessing f.path e.msg],
                log := st.log ++ lg0 } := by
  unfold EXIFProcessor.process_file
  rw [hnu]

theorem process_file_upd_ok (maxDate changeDate : PyDateTime) (st : ProcState) (f : FileModel)
    (evs0 : List OutEvent) (lg0 lg2 : List LogEvent)
    (hnu : EXIFProcessor.needs_update maxDate f = (.ok true, evs0, lg0))
    (hup : EXIFHandler.update_exif_date_file f changeDate = (.ok (), lg2)) :
    EXIFProcessor.process_file maxDate changeDate st f =
      { st with fileCount := st.fileCount + 1,
                updatedCount := st.updatedCount + 1,
                output := st.output ++ evs0 ++ [.updating f.path changeDate],
                log := st.log ++ lg0 ++ lg2 } := by
  unfold EXIFProcessor.process_file
  rw [hnu, hup]

theorem process_file_upd_err (maxDate changeDate : PyDateTime) (st : ProcState) (f : FileModel)
    (e : PyError) (evs0 : List OutEvent) (lg0 lg2 : List LogEvent)
    (hnu : EXIFProcessor.needs_update maxDate f = (.ok true, evs0, lg0))
    (hup : EXIFHandler.update_exif_date_file f changeDate = (.error e, lg2)) :
    EXIFProcessor.process_file maxDate changeDate st f =
      { st with fileCount := st.fileCount + 1,
                output := st.output ++ evs0 ++
                  [.updating f.path changeDate, .errorProcessing f.path e.msg],
                log := st.log ++ lg0 ++ lg2 } := by
  unfold EXIFProcessor.process_file
  rw [hnu, hup]

theorem process_file_skip (maxDate changeDate : PyDateTime) (st : ProcState) (f : FileModel)
    (evs0 : List OutEvent) (lg0 : List LogEvent)
    (hnu : EXIFProcessor.needs_update maxDate f = (.ok false, evs0, lg0)) :
    EXIFProcessor.process_file maxDate changeDate st f =
      { st with fileCount := st.fileCount + 1,
                output := st.output ++ evs0,
                log := st.log ++ lg0 } := by
  unfold EXIFProcessor.process_file
  rw [hnu]

/-- Combined per-file account: the loop body always counts the file,
counts an update exactly when the file reaches the `updated` state,
only appends to output/log, and reports any caught per-file exception
with the file path and its message. -/
theorem process_file_state (maxDate changeDate : PyDateTime) (st : ProcState) (f : FileModel) :
    (EXIFProcessor.process_file maxDate changeDate st f).fileCount = st.fileCount + 1 ∧
    (EXIFProcessor.process_file maxDate changeDate st f).updatedCount =
      st.updatedCount +
        (if EXIFProcessor.file_updated maxDate changeDate f = true then 1 else 0) ∧
    ∃ evs lgs,
      (EXIFProcessor.process_file maxDate changeDate st f).output = st.output ++ evs ∧
      (EXIFProcessor.process_file maxDate changeDate st f).log = st.log ++ lgs ∧
      ∀ e, EXIFProcessor.file_error maxDate changeDate f = some e →
        OutEvent.errorProcessing f.path e.msg ∈ evs := by
  rcases hnu : EXIFProcessor.needs_update maxDate f with ⟨res, evs0, lg0⟩
  match res, hnu with
  | .error e, hnu =>
      have hfu : EXIFProcessor.file_updated maxDate changeDate f = false := by
        unfold EXIFProcessor.file_updated
        rw [hnu]
      have hfe : EXIFProcessor.file_error maxDate changeDate f = some e := by
        unfold EXIFProcessor.file_error
        rw [hnu]
      rw [process_file_err maxDate changeDate st f e evs0 lg0 hnu]
      refine ⟨rfl, by rw [hfu]; simp,
        evs0 ++ [.errorProcessing f.path e.msg], lg0, by simp, rfl, ?_⟩
      intro e2 he2
      rw [hfe] at he2
      obtain rfl : e = e2 := by injection he2
      simp
  | .ok true, hnu =>
      rcases hu : EXIFHandler.update_exif_date_file f changeDate with ⟨ures, lg2⟩
      match ures, hu with
      | .ok u, hu =>
          have hfu : EXIFProcessor.file_updated maxDate changeDate f = true := by
            unfold EXIFProcessor.file_updated
            rw [hnu, hu]
          have hfe : EXIFProcessor.file_error maxDate changeDate f = none := by
            unfold EXIFProcessor.file_error
            rw [hnu, hu]
          rw [process_file_upd_ok maxDate changeDate st f evs0 lg0 lg2 hnu hu]
          refine ⟨rfl, by rw [hfu]; simp,
            evs0 ++ [.updating f.path changeDate], lg0 ++ lg2, by simp, by simp, ?_⟩
          intro e2 he2
          rw [hfe] at he2
          exact absurd he2 (by simp)
      | .error e, hu =>
          have hfu : EXIFProcessor.file_updated maxDate changeDate f = false := by
            unfold EXIFProcessor.file_updated
            rw [hnu, hu]
          have hfe : EXIFProcessor.file_error maxDate changeDate f = some e := by
            unfold EXIFProcessor.file_error
            rw [hnu, hu]
          rw [process_file_upd_err maxDate changeDate st f e evs0 lg0 lg2 hnu hu]
          refine ⟨rfl, by rw [hfu]; simp,
            evs0 ++ [.updating f.path changeDate, .errorProcessing f.path e.msg],
            lg0 ++ lg2, by simp, by simp, ?_⟩
          intro e2 he2
          rw [hfe] at he2
          obtain rfl : e = e2 := by injection he2
          simp
  | .ok false, hnu =>
      have hfu : EXIFProcessor.file_updated maxDate changeDate f = false := by
        unfold EXIFProcessor.file_updated
        rw [hnu]
      have hfe : EXIFProcessor.file_error maxDate changeDate f = none := by
        unfold EXIFProcessor.file_error
        rw [hnu]
      rw [process_file_skip maxDate changeDate st f evs0 lg0 hnu]
      refine ⟨rfl, by rw [hfu]; simp, evs0, lg0, by simp, rfl, ?_⟩
      intro e2 he2
      rw [hfe] at he2
      exact absurd he2 (by simp)

/-- The loop of `process_directory`: counters accumulate over the files
and every per-file error is reported in the appended output. -/
theorem foldl_process_file_spec (maxDate changeDate : PyDateTime) :
    ∀ (files : List FileModel) (st : ProcState),
      (files.foldl (EXIFProcessor.process_file maxDate changeDate) st).fileCount
          = st.fileCount + files.length ∧
      (files.foldl (EXIFProcessor.process_file maxDate changeDate) st).updatedCount
          = st.updatedCount + files.countP (EXIFProcessor.file_updated maxDate changeDate) ∧
      ∃ evs,
        (files.foldl (EXIFProcessor.process_file maxDate changeDate) st).output
            = st.output ++ evs ∧
        ∀ f ∈ files, ∀ e, EXIFProcessor.file_error maxDate changeDate f = some e →
          OutEvent.errorProcessing f.path e.msg ∈ evs := by
  intro files
  induction files with
  | nil =>
      intro st
      exact ⟨by simp, by simp, [], by simp, by simp⟩
  | cons f fs ih =>
      intro st
      obtain ⟨hfc, hup, evs1, lgs1, hout, _, herr⟩ :=
        process_file_state maxDate changeDate st f
      obtain ⟨ihc, ihu, evs2, iho, iherr⟩ :=
        ih (EXIFProcessor.process_file maxDate changeDate st f)
      refine ⟨?_, ?_, evs1 ++ evs2, ?_, ?_⟩
      · rw [List.foldl_cons, ihc, hfc, List.length_cons]
        omega
      · rw [List.foldl_cons, ihu, hup, List.countP_cons]
        have : (if EXIFProcessor.file_updated maxDate changeDate f = true then 1 else 0)
            = (if EXIFProcessor.file_updated maxDate changeDate f then 1 else 0) := by
          split <;> simp_all
        omega
      · rw [List.foldl_cons, iho, hout, List.append_assoc]
      · intro g hg e he
        rcases List.mem_cons.mp hg with rfl | hg
        · exact List.mem_append_left _ (herr e he)
        · exact List.mem_append_right _ (iherr g hg e he)

/- ## Remaining helpers for the claim theorems -/

theorem lookup_setTag (l : List (Nat × List Char)) (t : Nat) (v : List Char) :
    List.lookup t (setTag l t v) = some v := by
  simp [setTag, List.lookup]

theorem containsSub_of_append (n h : List Char) (hinf : n <:+: h) : containsSub n h = true := by
  obtain ⟨a, b, hab⟩ := hinf
  rw [containsSub, List.any_eq_true]
  refine ⟨n ++ b, ?_, ?_⟩
  · rw [List.mem_tails]
    refine ⟨a, by rw [← hab]; simp⟩
  · rw [ List.isPrefixOf_iff_prefix]
    exact ⟨b, rfl⟩

/- ## The claims -/

/-- C1 counterexample.  The claim quantifies over both extractors
("EXIFHandler.get_image_date / get_image_date"), but
`EXIFHandler._fix_invalid_hours` has no length guard: the 19-character
string "2023:08:15 24:30:00" has length < 20 and an invalid hour slice,
yet the class-based extractor repairs it and returns
2023-08-15 00:30:00 instead of raising a format error. -/
theorem c1_counterexample :
    ("2023:08:15 24:30:00").toList.length < 20 ∧
    pySlice ("2023:08:15 24:30:00").toList 11 13 ∉ VALID_HOURS ∧
    EXIFHandler.get_image_date EXIFHandler.defaultDate
        ⟨[(ImageIFD_DateTime, ("2023:08:15 24:30:00").toList)], []⟩ ("a.jpg").toList
      = (.ok ⟨2023, 8, 15, 0, 30, 0, 0⟩,
         [.warnInvalidHour ("2023:08:15 24:30:00").toList ("a.jpg").toList]) := by
  refine ⟨by decide, by decide, ?_⟩
  rfl

/-- C1 (amended): for the module-level extractor
`image_functions.get_image_date`, a present date string of length < 20
whose hour slice is invalid skips hour repair entirely (no warning is
emitted, the string reaches the parser unmodified), and a parse failure
raises the format ValueError; it never silently repairs such a string.
The class-based `EXIFHandler.get_image_date` instead applies the repair
regardless of length (see the counterexample). -/
theorem c1_theorem (exifData : ExifDict) (path s : List Char)
    (hl : List.lookup ImageIFD_DateTime exifData.zeroth = some s)
    (hne : s.isEmpty = false)
    (hlen : s.length < 20)
    (_hsl : pySlice s 11 13 ∉ VALID_HOURS)
    (hparse : pyStrptimeExif s = none) :
    ImageFunctions.get_image_date exifData path =
      (.error (.valueError ("Invalid datetime format ".toList ++ quoteChar ::
         s ++ quoteChar :: " in ".toList ++ path)), []) :=
  funcs_get_image_date_short_fail exifData path s hl hne hlen hparse

/-- C1 witness: the 19-character string "2023:08:15 99:99:99" (invalid
hour slice "99") is rejected unrepaired with no warning. -/
theorem c1_witness :
    ImageFunctions.get_image_date
        ⟨[(ImageIFD_DateTime, ("2023:08:15 99:99:99").toList)], []⟩ ("a.jpg").toList
      = (.error (.valueError ("Invalid datetime format ".toList ++ quoteChar ::
          ("2023:08:15 99:99:99").toList ++ quoteChar :: " in ".toList ++ ("a.jpg").toList)),
         []) :=
  c1_theorem ⟨[(ImageIFD_DateTime, ("2023:08:15 99:99:99").toList)], []⟩ ("a.jpg").toList
    ("2023:08:15 99:99:99").toList rfl rfl (by decide) (by decide) (by decide)

/-- C2 counterexample.  With the main() threshold 2025-01-01 01:01:01, a
file whose creation date cannot be determined extracts the year-9999
sentinel and `_needs_update` returns True — the file is treated as
NEEDING an update (and is in fact updated in a run), not skipped as the
claim states. -/
theorem c2_counterexample :
    (EXIFProcessor.needs_update mainMaxDate
        ⟨("x.jpg").toList, .ok ⟨[], []⟩, none⟩).1 = .ok true ∧
    (EXIFProcessor.process_directory mainMaxDate mainChangeDate
        [⟨("x.jpg").toList, .ok ⟨[], []⟩, none⟩]).updatedCount = 1 := by
  exact ⟨rfl, rfl⟩

/-- C2 (amended): for every file whose creation date cannot be
determined, the extracted date is the maximal sentinel default
(9999-01-01), and since `_needs_update` returns
`file_date > self.max_date`, for every threshold strictly below the
sentinel the file is treated as "needs updating" (the comparison yields
True and the update is attempted); it is not skipped. -/
theorem c2_theorem (maxDate : PyDateTime) (f : FileModel) (exifData : ExifDict)
    (hread : f.readResult = .ok exifData)
    (hl : List.lookup ImageIFD_DateTime exifData.zeroth = none)
    (hlt : pyLt maxDate EXIFHandler.defaultDate = true) :
    (EXIFHandler.get_image_date_file EXIFHandler.defaultDate f).1
        = .ok EXIFHandler.defaultDate ∧
    (EXIFProcessor.needs_update maxDate f).1 = .ok true := by
  have hget : EXIFHandler.get_image_date_file EXIFHandler.defaultDate f
      = (.ok EXIFHandler.defaultDate, [.warnNoExifDate f.path]) := by
    unfold EXIFHandler.get_image_date_file
    rw [hread]
    exact handler_get_image_date_missing EXIFHandler.defaultDate exifData f.path hl
  have hgt : pyGt EXIFHandler.defaultDate maxDate = true := hlt
  constructor
  · rw [hget]
  · unfold EXIFProcessor.needs_update
    rw [hget]
    show Except.ok (pyGt EXIFHandler.defaultDate maxDate) = Except.ok true
    rw [hgt]

/-- C2 witness at the main() threshold and a metadata-less file. -/
theorem c2_witness :
    (EXIFHandler.get_image_date_file EXIFHandler.defaultDate
        ⟨("y.jpg").toList, .ok ⟨[], []⟩, none⟩).1 = .ok EXIFHandler.defaultDate ∧
    (EXIFProcessor.needs_update mainMaxDate ⟨("y.jpg").toList, .ok ⟨[], []⟩, none⟩).1
        = .ok true :=
  c2_theorem mainMaxDate ⟨("y.jpg").toList, .ok ⟨[], []⟩, none⟩ ⟨[], []⟩ rfl rfl (by decide)

/-- C3 counterexample.  The sources of the claim include
image_functions.get_image_date, which on a container with no
creation-date tag raises RuntimeError rather than warning and returning
the sentinel. -/
theorem c3_counterexample :
    (ImageFunctions.get_image_date ⟨[], []⟩ ("p.jpg").toList).1
      = .error (.runtimeError ("No creation date found for image: ".toList ++
          ("p.jpg").toList)) := rfl

/-- C3 (amended): on a metadata container with no creation-date tag, the
class-based extractor `EXIFHandler.get_image_date` logs one warning and
returns the configured sentinel default without raising; the
module-level `image_functions.get_image_date` instead raises a
RuntimeError naming the path. -/
theorem c3_theorem (dflt : PyDateTime) (exifData : ExifDict) (image path : List Char)
    (hl : List.lookup ImageIFD_DateTime exifData.zeroth = none) :
    EXIFHandler.get_image_date dflt exifData image = (.ok dflt, [.warnNoExifDate image]) ∧
    ImageFunctions.get_image_date exifData path =
      (.error (.runtimeError ("No creation date found for image: ".toList ++ path)), []) :=
  ⟨handler_get_image_date_missing dflt exifData image hl,
   funcs_get_image_date_missing exifData path hl⟩

/-- C3 witness on an empty container. -/
theorem c3_witness :
    EXIFHandler.get_image_date EXIFHandler.defaultDate ⟨[], []⟩ ("q.jpg").toList
        = (.ok EXIFHandler.defaultDate, [.warnNoExifDate ("q.jpg").toList]) ∧
    ImageFunctions.get_image_date ⟨[], []⟩ ("q.jpg").toList
        = (.error (.runtimeError ("No creation date found for image: ".toList ++
            ("q.jpg").toList)), []) :=
  c3_theorem EXIFHandler.defaultDate ⟨[], []⟩ ("q.jpg").toList ("q.jpg").toList rfl

/-- C4 counterexample.  On the 20-character date string
"2023:08:15 24:30:00X" (length ≥ 20, hour slice "24") the module-level
extractor repairs the hour but then raises ValueError instead of
returning the date-time with hour 00 that the claim promises: no string
of length ≥ 20 can match the 19-character canonical pattern. -/
theorem c4_counterexample :
    20 ≤ ("2023:08:15 24:30:00X").toList.length ∧
    pySlice ("2023:08:15 24:30:00X").toList 11 13 = ['2', '4'] ∧
    (ImageFunctions.get_image_date
        ⟨[(ImageIFD_DateTime, ("2023:08:15 24:30:00X").toList)], []⟩ ("a.jpg").toList).1
      = .error (.valueError ("Invalid datetime format ".toList ++ quoteChar ::
          ("2023:08:15 00:30:00X").toList ++ quoteChar :: " in ".toList ++
          ("a.jpg").toList)) := by
  refine ⟨by decide, by decide, ?_⟩
  rfl

/-- C4 (amended): for every date string with hour slice "24" and length
≥ 20, both extractors apply the hour repair (forcing the hour field to
00) and emit exactly one warning referencing the original string, but
then unavoidably raise a format error instead of returning the
date-time: the repaired string still has length ≥ 20 and no such string
matches the canonical pattern.  (The module-level variant names the
repaired string in the ValueError; the class-based variant logs it and
names only the image.) -/
theorem c4_theorem (dflt : PyDateTime) (exifData : ExifDict) (image path s : List Char)
    (hl : List.lookup ImageIFD_DateTime exifData.zeroth = some s)
    (hlen : 20 ≤ s.length) (hsl : pySlice s 11 13 = ['2', '4']) :
    ImageFunctions.get_image_date exifData path =
      (.error (.valueError ("Invalid datetime format ".toList ++ quoteChar ::
         (s.take 11 ++ '0' :: '0' :: s.drop 13) ++ quoteChar :: " in ".toList ++ path)),
       [.warnInvalidHour24 s path]) ∧
    EXIFHandler.get_image_date dflt exifData image =
      (.error (.valueError ("Invalid date format in ".toList ++ image)),
       [.warnInvalidHour s image,
        .errInvalidDateFormat (s.take 11 ++ '0' :: '0' :: s.drop 13) image]) :=
  ⟨funcs_get_image_date_long24 exifData path s hl hlen hsl,
   handler_get_image_date_long24 dflt exifData image s hl hlen hsl⟩

/-- C4 witness at "2023:08:15 24:30:00X". -/
theorem c4_witness :
    ImageFunctions.get_image_date
        ⟨[(ImageIFD_DateTime, ("2023:08:15 24:30:00X").toList)], []⟩ ("a.jpg").toList =
      (.error (.valueError ("Invalid datetime format ".toList ++ quoteChar ::
         (("2023:08:15 24:30:00X").toList.take 11 ++ '0' :: '0' ::
            ("2023:08:15 24:30:00X").toList.drop 13) ++ quoteChar :: " in ".toList ++
         ("a.jpg").toList)),
       [.warnInvalidHour24 ("2023:08:15 24:30:00X").toList ("a.jpg").toList]) ∧
    EXIFHandler.get_image_date EXIFHandler.defaultDate
        ⟨[(ImageIFD_DateTime, ("2023:08:15 24:30:00X").toList)], []⟩ ("b.jpg").toList =
      (.error (.valueError ("Invalid date format in ".toList ++ ("b.jpg").toList)),
       [.warnInvalidHour ("2023:08:15 24:30:00X").toList ("b.jpg").toList,
        .errInvalidDateFormat (("2023:08:15 24:30:00X").toList.take 11 ++ '0' :: '0' ::
          ("2023:08:15 24:30:00X").toList.drop 13) ("b.jpg").toList]) :=
  c4_theorem EXIFHandler.defaultDate
    ⟨[(ImageIFD_DateTime, ("2023:08:15 24:30:00X").toList)], []⟩
    ("b.jpg").toList ("a.jpg").toList ("2023:08:15 24:30:00X").toList
    rfl (by decide) (by decide)

/-- C5: every valid 19-character canonical date string (the strftime
rendering of a constructor-valid datetime, whose hour field is
necessarily 00-23) is parsed by both extractors to the exact
corresponding date-time value, and no warning (no log entry at all) is
emitted. -/
theorem c5_theorem (dflt : PyDateTime) (exifData : ExifDict) (image path : List Char)
    (d : PyDateTime) (hv : d.Valid) (hus : d.microsecond = 0)
    (hl : List.lookup ImageIFD_DateTime exifData.zeroth = some (pyStrftimeExif d)) :
    (pyStrftimeExif d).length = 19 ∧
    EXIFHandler.get_image_date dflt exifData image = (.ok d, []) ∧
    ImageFunctions.get_image_date exifData path = (.ok d, []) := by
  have hd0 : ({ d with microsecond := 0 } : PyDateTime) = d := by
    cases d
    simp_all
  refine ⟨pyStrftimeExif_length d, ?_, ?_⟩
  · rw [handler_get_image_date_canonical dflt exifData image d hv hl, hd0]
  · rw [funcs_get_image_date_canonical exifData path d hv hl, hd0]

/-- C5 witness at 2023-08-15 12:30:00. -/
theorem c5_witness :
    (pyStrftimeExif ⟨2023, 8, 15, 12, 30, 0, 0⟩).length = 19 ∧
    EXIFHandler.get_image_date EXIFHandler.defaultDate
        ⟨[(ImageIFD_DateTime, pyStrftimeExif ⟨2023, 8, 15, 12, 30, 0, 0⟩)], []⟩
        ("a.jpg").toList = (.ok ⟨2023, 8, 15, 12, 30, 0, 0⟩, []) ∧
    ImageFunctions.get_image_date
        ⟨[(ImageIFD_DateTime, pyStrftimeExif ⟨2023, 8, 15, 12, 30, 0, 0⟩)], []⟩
        ("a.jpg").toList = (.ok ⟨2023, 8, 15, 12, 30, 0, 0⟩, []) :=
  c5_theorem EXIFHandler.defaultDate
    ⟨[(ImageIFD_DateTime, pyStrftimeExif ⟨2023, 8, 15, 12, 30, 0, 0⟩)], []⟩
    ("a.jpg").toList ("a.jpg").toList ⟨2023, 8, 15, 12, 30, 0, 0⟩ (by decide) rfl rfl

/-- C6: when extraction succeeds with date `d`, the batch loop body
attempts the update (prints "Updating ...", the first step of
`_update_file`) if and only if `d` is strictly greater than the
threshold; when `d ≤ max_date` the file is left untouched: the state
changes only by counting the file and printing the found date. -/
theorem c6_theorem (maxDate changeDate : PyDateTime) (f : FileModel) (d : PyDateTime)
    (lg : List LogEvent)
    (hget : EXIFHandler.get_image_date_file EXIFHandler.defaultDate f = (.ok d, lg)) :
    ((OutEvent.updating f.path changeDate ∈
        (EXIFProcessor.process_file maxDate changeDate ⟨0, 0, [], []⟩ f).output)
      ↔ pyGt d maxDate = true) ∧
    (pyGt d maxDate = false →
      EXIFProcessor.process_file maxDate changeDate ⟨0, 0, [], []⟩ f
        = ⟨1, 0, [.foundDate d f.path], lg⟩) := by
  have hnu : EXIFProcessor.needs_update maxDate f
      = (.ok (pyGt d maxDate), [.foundDate d f.path], lg) := by
    unfold EXIFProcessor.needs_update
    rw [hget]
  cases hgt : pyGt d maxDate with
  | true =>
      rw [hgt] at hnu
      constructor
      · rcases hu : EXIFHandler.update_exif_date_file f changeDate with ⟨ures, lg2⟩
        match ures, hu with
        | .ok u, hu =>
            rw [process_file_upd_ok maxDate changeDate _ f _ _ _ hnu hu]
            simp
        | .error e, hu =>
            rw [process_file_upd_err maxDate changeDate _ f e _ _ _ hnu hu]
            simp
      · intro hcontra
        exact absurd hcontra (by simp)
  | false =>
      rw [hgt] at hnu
      rw [process_file_skip maxDate changeDate _ f _ _ hnu]
      constructor
      · simp
      · intro _
        rfl

/-- C6 witness: a file dated 2026-05-01 against the main() threshold is
updated; instantiating the theorem discharges its hypothesis. -/
theorem c6_witness :
    ((OutEvent.updating ("w.jpg").toList mainChangeDate ∈
        (EXIFProcessor.process_file mainMaxDate mainChangeDate ⟨0, 0, [], []⟩
          ⟨("w.jpg").toList,
           .ok ⟨[(ImageIFD_DateTime, pyStrftimeExif ⟨2026, 5, 1, 10, 0, 0, 0⟩)], []⟩,
           none⟩).output)
      ↔ pyGt ⟨2026, 5, 1, 10, 0, 0, 0⟩ mainMaxDate = true) ∧
    (pyGt ⟨2026, 5, 1, 10, 0, 0, 0⟩ mainMaxDate = false →
      EXIFProcessor.process_file mainMaxDate mainChangeDate ⟨0, 0, [], []⟩
          ⟨("w.jpg").toList,
           .ok ⟨[(ImageIFD_DateTime, pyStrftimeExif ⟨2026, 5, 1, 10, 0, 0, 0⟩)], []⟩,
           none⟩
        = ⟨1, 0, [.foundDate ⟨2026, 5, 1, 10, 0, 0, 0⟩ ("w.jpg").toList], []⟩) :=
  c6_theorem mainMaxDate mainChangeDate
    ⟨("w.jpg").toList,
     .ok ⟨[(ImageIFD_DateTime, pyStrftimeExif ⟨2026, 5, 1, 10, 0, 0, 0⟩)], []⟩, none⟩
    ⟨2026, 5, 1, 10, 0, 0, 0⟩ [] rfl

theorem funcs_get_image_date_norepair_fail (exifData : ExifDict) (path s : List Char)
    (hl : List.lookup ImageIFD_DateTime exifData.zeroth = some s)
    (hne : s.isEmpty = false)
    (hguard : ¬(20 ≤ s.length ∧ pySlice s 11 13 = ['2', '4']))
    (hparse : pyStrptimeExif s = none) :
    ImageFunctions.get_image_date exifData path =
      (.error (.valueError ("Invalid datetime format ".toList ++ quoteChar ::
         s ++ quoteChar :: " in ".toList ++ path)), []) := by
  unfold ImageFunctions.get_image_date
  rw [hl]
  simp only [hne, Bool.false_eq_true, if_false, if_neg hguard, hparse]

/-- C7 counterexample.  On the unparseable date string "not-a-real-date"
the class-based extractor raises
ValueError("Invalid date format in photo.jpg"): the message names the
image but does NOT contain the offending date string, refuting the
claim that the raised format error names both. -/
theorem c7_counterexample :
    (EXIFHandler.get_image_date EXIFHandler.defaultDate
        ⟨[(ImageIFD_DateTime, ("not-a-real-date").toList)], []⟩ ("photo.jpg").toList).1
      = .error (.valueError ("Invalid date format in ".toList ++ ("photo.jpg").toList)) ∧
    containsSub ("not-a-real-date").toList
        ("Invalid date format in ".toList ++ ("photo.jpg").toList) = false := by
  exact ⟨rfl, rfl⟩

/-- C7 (amended): for every date string that, after possible hour
repair, fails to parse, both extractors raise a ValueError and never
substitute the sentinel at this stage; the message of the module-level
extractor names both the offending (possibly repaired) string and the
path, while the raised message of the class-based extractor names only
the source image — the offending string appears in its ERROR-level log
entry instead. -/
theorem c7_theorem (dflt : PyDateTime) (exifData : ExifDict) (image path s fixed : List Char)
    (lg : List LogEvent)
    (hl : List.lookup ImageIFD_DateTime exifData.zeroth = some s)
    (hne : s.isEmpty = false)
    (hfix : EXIFHandler.fix_invalid_hours s image = (fixed, lg))
    (hparsefix : pyStrptimeExif fixed = none)
    (hguard : ¬(20 ≤ s.length ∧ pySlice s 11 13 = ['2', '4']))
    (hparse : pyStrptimeExif s = none) :
    EXIFHandler.get_image_date dflt exifData image =
      (.error (.valueError ("Invalid date format in ".toList ++ image)),
       lg ++ [.errInvalidDateFormat fixed image]) ∧
    ImageFunctions.get_image_date exifData path =
      (.error (.valueError ("Invalid datetime format ".toList ++ quoteChar ::
         s ++ quoteChar :: " in ".toList ++ path)), []) ∧
    containsSub s ("Invalid datetime format ".toList ++ quoteChar ::
        s ++ quoteChar :: " in ".toList ++ path) = true ∧
    containsSub path ("Invalid datetime format ".toList ++ quoteChar ::
        s ++ quoteChar :: " in ".toList ++ path) = true ∧
    containsSub image ("Invalid date format in ".toList ++ image) = true := by
  refine ⟨handler_get_image_date_parse_fail dflt exifData image s fixed lg hl hne hfix hparsefix,
    funcs_get_image_date_norepair_fail exifData path s hl hne hguard hparse, ?_, ?_, ?_⟩
  · refine containsSub_of_append _ _
      ⟨"Invalid datetime format ".toList ++ [quoteChar],
       quoteChar :: " in ".toList ++ path, ?_⟩
    simp
  · refine containsSub_of_append _ _
      ⟨"Invalid datetime format ".toList ++ quoteChar :: s ++ quoteChar :: " in ".toList,
       [], ?_⟩
    simp
  · refine containsSub_of_append _ _ ⟨"Invalid date format in ".toList, [], ?_⟩
    simp

/-- C7 witness at "not-a-real-date" (hour slice "da" is invalid, so the
class-based variant repairs it to "not-a-real-00te" before failing). -/
theorem c7_witness :
    EXIFHandler.get_image_date EXIFHandler.defaultDate
        ⟨[(ImageIFD_DateTime, ("not-a-real-date").toList)], []⟩ ("photo.jpg").toList =
      (.error (.valueError ("Invalid date format in ".toList ++ ("photo.jpg").toList)),
       [.warnInvalidHour ("not-a-real-date").toList ("photo.jpg").toList] ++
        [.errInvalidDateFormat ("not-a-real-00te").toList ("photo.jpg").toList]) ∧
    ImageFunctions.get_image_date
        ⟨[(ImageIFD_DateTime, ("not-a-real-date").toList)], []⟩ ("photo.jpg").toList =
      (.error (.valueError ("Invalid datetime format ".toList ++ quoteChar ::
         ("not-a-real-date").toList ++ quoteChar :: " in ".toList ++ ("photo.jpg").toList)),
       []) ∧
    containsSub ("not-a-real-date").toList ("Invalid datetime format ".toList ++ quoteChar ::
        ("not-a-real-date").toList ++ quoteChar :: " in ".toList ++ ("photo.jpg").toList)
      = true ∧
    containsSub ("photo.jpg").toList ("Invalid datetime format ".toList ++ quoteChar ::
        ("not-a-real-date").toList ++ quoteChar :: " in ".toList ++ ("photo.jpg").toList)
      = true ∧
    containsSub ("photo.jpg").toList
        ("Invalid date format in ".toList ++ ("photo.jpg").toList) = true :=
  c7_theorem EXIFHandler.defaultDate
    ⟨[(ImageIFD_DateTime, ("not-a-real-date").toList)], []⟩
    ("photo.jpg").toList ("photo.jpg").toList ("not-a-real-date").toList
    ("not-a-real-00te").toList
    [.warnInvalidHour ("not-a-real-date").toList ("photo.jpg").toList]
    rfl rfl rfl rfl (by decide) rfl

/-- C8: update (`EXIFHandler.update_exif_date` / `replace_exif`)
followed immediately by extract on the same metadata container returns
exactly the date-time passed to update, truncated to second precision
(the round trip goes through the canonical 19-character string). -/
theorem c8_theorem (dflt : PyDateTime) (exifDict exifDict2 : ExifDict) (image path : List Char)
    (nd : PyDateTime) (hv : nd.Valid) :
    EXIFHandler.get_image_date dflt (EXIFHandler.update_exif_date exifDict nd) image
      = (.ok { nd with microsecond := 0 }, []) ∧
    ImageFunctions.get_image_date (ImageFunctions.replace_exif exifDict2 nd) path
      = (.ok { nd with microsecond := 0 }, []) := by
  constructor
  · refine handler_get_image_date_canonical dflt _ image nd hv ?_
    exact lookup_setTag exifDict.zeroth ImageIFD_DateTime (pyStrftimeExif nd)
  · refine funcs_get_image_date_canonical _ path nd hv ?_
    exact lookup_setTag exifDict2.zeroth ImageIFD_DateTime (pyStrftimeExif nd)

/-- C8 witness at the leap-day value 2024-02-29 23:59:58.123456: the
extract returns it truncated to 2024-02-29 23:59:58. -/
theorem c8_witness :
    EXIFHandler.get_image_date EXIFHandler.defaultDate
        (EXIFHandler.update_exif_date ⟨[], []⟩ ⟨2024, 2, 29, 23, 59, 58, 123456⟩)
        ("a.jpg").toList
      = (.ok ⟨2024, 2, 29, 23, 59, 58, 0⟩, []) ∧
    ImageFunctions.get_image_date
        (ImageFunctions.replace_exif ⟨[], []⟩ ⟨2024, 2, 29, 23, 59, 58, 123456⟩)
        ("a.jpg").toList
      = (.ok ⟨2024, 2, 29, 23, 59, 58, 0⟩, []) :=
  c8_theorem EXIFHandler.defaultDate ⟨[], []⟩ ⟨[], []⟩ ("a.jpg").toList ("a.jpg").toList
    ⟨2024, 2, 29, 23, 59, 58, 123456⟩ (by decide)

/-- C9: in every directory scan, any exception raised while extracting
from or updating a single file is caught at the per-file level and
reported with the file path and the error message; processing continues
(every candidate file is counted, including failed ones); and the run
ends by printing both counters: total files seen and files successfully
updated. -/
theorem c9_theorem (maxDate changeDate : PyDateTime) (files : List FileModel) :
    (EXIFProcessor.process_directory maxDate changeDate files).fileCount = files.length ∧
    (EXIFProcessor.process_directory maxDate changeDate files).updatedCount
        = files.countP (EXIFProcessor.file_updated maxDate changeDate) ∧
    (∀ f ∈ files, ∀ e, EXIFProcessor.file_error maxDate changeDate f = some e →
      OutEvent.errorProcessing f.path e.msg ∈
        (EXIFProcessor.process_directory maxDate changeDate files).output) ∧
    OutEvent.processedSummary files.length
        (files.countP (EXIFProcessor.file_updated maxDate changeDate)) ∈
      (EXIFProcessor.process_directory maxDate changeDate files).output := by
  obtain ⟨hfc, hup, evs, hout, herr⟩ :=
    foldl_process_file_spec maxDate changeDate files ⟨0, 0, [], []⟩
  simp only [Nat.zero_add, List.nil_append] at hfc hup hout
  have hpd : EXIFProcessor.process_directory maxDate changeDate files
      = { files.foldl (EXIFProcessor.process_file maxDate changeDate) ⟨0, 0, [], []⟩ with
          output :=
            (files.foldl (EXIFProcessor.process_file maxDate changeDate)
              ⟨0, 0, [], []⟩).output ++
            [.processedSummary
              (files.foldl (EXIFProcessor.process_file maxDate changeDate)
                ⟨0, 0, [], []⟩).fileCount
              (files.foldl (EXIFProcessor.process_file maxDate changeDate)
                ⟨0, 0, [], []⟩).updatedCount] } := rfl
  refine ⟨?_, ?_, ?_, ?_⟩
  · rw [hpd]
    exact hfc
  · rw [hpd]
    exact hup
  · intro f hf e he
    rw [hpd]
    show OutEvent.errorProcessing f.path e.msg ∈ _ ++ _
    apply List.mem_append_left
    rw [hout]
    exact herr f hf e he
  · rw [hpd]
    show OutEvent.processedSummary files.length
        (files.countP (EXIFProcessor.file_updated maxDate changeDate)) ∈ _ ++ _
    apply List.mem_append_right
    rw [hfc, hup]
    exact List.mem_singleton_self _

/-- C9 witness: a four-file scan — 2020 (skipped), 2025-06 (updated),
no metadata (sentinel, updated), unparseable date (reported failure) —
processes 4 files, updates 2, and reports the path of the failing file and its
message. -/
theorem c9_witness :
    (EXIFProcessor.process_directory mainMaxDate mainChangeDate
      [⟨("a.jpg").toList,
        .ok ⟨[(ImageIFD_DateTime, pyStrftimeExif ⟨2020, 1, 1, 10, 0, 0, 0⟩)], []⟩, none⟩,
       ⟨("b.jpg").toList,
        .ok ⟨[(ImageIFD_DateTime, pyStrftimeExif ⟨2025, 6, 1, 0, 0, 0, 0⟩)], []⟩, none⟩,
       ⟨("c.jpg").toList, .ok ⟨[], []⟩, none⟩,
       ⟨("d.jpg").toList, .ok ⟨[(ImageIFD_DateTime, ("garbage").toList)], []⟩, none⟩]
      ).fileCount = 4 ∧
    (EXIFProcessor.process_directory mainMaxDate mainChangeDate
      [⟨("a.jpg").toList,
        .ok ⟨[(ImageIFD_DateTime, pyStrftimeExif ⟨2020, 1, 1, 10, 0, 0, 0⟩)], []⟩, none⟩,
       ⟨("b.jpg").toList,
        .ok ⟨[(ImageIFD_DateTime, pyStrftimeExif ⟨2025, 6, 1, 0, 0, 0, 0⟩)], []⟩, none⟩,
       ⟨("c.jpg").toList, .ok ⟨[], []⟩, none⟩,
       ⟨("d.jpg").toList, .ok ⟨[(ImageIFD_DateTime, ("garbage").toList)], []⟩, none⟩]
      ).updatedCount = 2 ∧
    OutEvent.errorProcessing ("d.jpg").toList
        ("Invalid date format in ".toList ++ ("d.jpg").toList) ∈
      (EXIFProcessor.process_directory mainMaxDate mainChangeDate
        [⟨("a.jpg").toList,
          .ok ⟨[(ImageIFD_DateTime, pyStrftimeExif ⟨2020, 1, 1, 10, 0, 0, 0⟩)], []⟩, none⟩,
         ⟨("b.jpg").toList,
          .ok ⟨[(ImageIFD_DateTime, pyStrftimeExif ⟨2025, 6, 1, 0, 0, 0, 0⟩)], []⟩, none⟩,
         ⟨("c.jpg").toList, .ok ⟨[], []⟩, none⟩,
         ⟨("d.jpg").toList, .ok ⟨[(ImageIFD_DateTime, ("garbage").toList)], []⟩, none⟩]
        ).output := by
  obtain ⟨h1, h2, h3, _⟩ := c9_theorem mainMaxDate mainChangeDate
    [⟨("a.jpg").toList,
      .ok ⟨[(ImageIFD_DateTime, pyStrftimeExif ⟨2020, 1, 1, 10, 0, 0, 0⟩)], []⟩, none⟩,
     ⟨("b.jpg").toList,
      .ok ⟨[(ImageIFD_DateTime, pyStrftimeExif ⟨2025, 6, 1, 0, 0, 0, 0⟩)], []⟩, none⟩,
     ⟨("c.jpg").toList, .ok ⟨[], []⟩, none⟩,
     ⟨("d.jpg").toList, .ok ⟨[(ImageIFD_DateTime, ("garbage").toList)], []⟩, none⟩]
  refine ⟨by rw [h1]; rfl, by rw [h2]; rfl, ?_⟩
  refine h3 ⟨("d.jpg").toList, .ok ⟨[(ImageIFD_DateTime, ("garbage").toList)], []⟩, none⟩
    (by simp) (.valueError ("Invalid date format in ".toList ++ ("d.jpg").toList)) ?_
  rfl

/-- C10: `EXIFHandler._fix_invalid_hours` is total; whenever the slice
at offsets 11-13 is not a valid hour — which is always the case for
strings shorter than 13 characters, whose slice is too short — it
returns the first 11 characters, then "00", then the characters from
offset 13 on, so short malformed strings are silently altered rather
than left alone. -/
theorem c10_theorem (s image : List Char) :
    (s.length < 13 → pySlice s 11 13 ∉ VALID_HOURS) ∧
    (pySlice s 11 13 ∉ VALID_HOURS →
      (EXIFHandler.fix_invalid_hours s image).1 = s.take 11 ++ '0' :: '0' :: s.drop 13) ∧
    (s.length < 13 → (EXIFHandler.fix_invalid_hours s image).1 ≠ s) := by
  refine ⟨pySlice_short_not_valid s, ?_, ?_⟩
  · intro h
    rw [EXIFHandler.fix_invalid_hours, if_pos h]
  · intro hlen heq
    have hm := pySlice_short_not_valid s hlen
    rw [EXIFHandler.fix_invalid_hours, if_pos hm] at heq
    have hlen2 := congrArg List.length heq
    simp at hlen2
    omega

/-- C10 witness: the 3-character string "abc" is rewritten to "abc00". -/
theorem c10_witness :
    (EXIFHandler.fix_invalid_hours ("abc").toList ("i.jpg").toList).1
      = ("abc").toList.take 11 ++ '0' :: '0' :: ("abc").toList.drop 13 ∧
    (EXIFHandler.fix_invalid_hours ("abc").toList ("i.jpg").toList).1 ≠ ("abc").toList := by
  obtain ⟨h1, h2, h3⟩ := c10_theorem ("abc").toList ("i.jpg").toList
  exact ⟨h2 (h1 (by decide)), h3 (by decide)⟩
